import Mathlib

/-!
Verification development for the CogniMeet voice-chat matchmaking engine
(`src/app.py`).  The shared mutable state of the Flask/SocketIO application
(the module-level `waiting_queue` deque, the `active_sessions` dict, the
`VoiceSession` database table, the background timeout tasks started by
`handle_join_queue`, and the stream of SocketIO events emitted to clients)
is embedded as an explicit state record, and every handler that touches it
(`handle_join_queue`, `check_timeout`, `handle_cancel_search`,
`handle_disconnect`, `logout`, `handle_end_session`) as a state
transformer.  External collaborators are modelled by oracles: the Daily.co
HTTP API response is a parameter of `create_daily_room` / `delete_daily_room`,
and the random tokens produced by `secrets` are parameters of the operations
that consume them.

Sequential (per-handler-atomic) executions are lists of `Op` folded by
`execOps`.  For the timeout race, a finer model (`TThread`, `stepThread`,
`crun`) splits `check_timeout` at the only boundary that matters — between
its membership test (line 291) and the fallback body (lines 293-328) —
which the Python code does not make atomic.
-/

namespace CogniMeet

/-- Outcome of an HTTP call to the Daily.co API: a response with a status
code and (for room creation) the returned room url and name, or a raised
exception. -/
inductive HttpResult where
  | resp (status : Nat) (url : String) (name : String)
  | exn
deriving DecidableEq

/-- The nondeterministic inputs consumed by one session-creating operation:
whether `DAILY_API_KEY` is set, the Daily.co API outcome, and the fresh
tokens drawn from `secrets` (`session_id = secrets.token_urlsafe(16)`,
`room_name = "room" + secrets.token_hex(8)` or `"ai" + ...`). -/
structure ProvEnv where
  hasKey : Bool
  resp : HttpResult
  session_id : String
  room_name : String
deriving DecidableEq

/-- One element of the module-level `waiting_queue` deque: the dict
`{user_id, username, sid, joined_at}` appended at line 274. -/
structure WaitingEntry where
  user_id : Nat
  username : String
  sid : Nat
  joined_at : Nat
deriving DecidableEq

/-- The `status` column of a `VoiceSession` row: `'active'` (default) or
`'ended'`. -/
inductive SessStatus where
  | active
  | ended
deriving DecidableEq

/-- A row of the `VoiceSession` database table (`session_id`, `room_name`,
`room_url`, `user1_id`, `user2_id` nullable, `is_ai_session`, `status`,
`created_at`, `ended_at` nullable). -/
structure SessionRec where
  session_id : String
  room_name : String
  room_url : String
  user1_id : Nat
  user2_id : Option Nat
  is_ai_session : Bool
  status : SessStatus
  created_at : Nat
  ended_at : Option Nat
deriving DecidableEq

/-- A value of the module-level `active_sessions` dict (keyed by
session id). -/
structure ActiveRec where
  user1_id : Nat
  user2_id : Option Nat
  room_name : String
  room_url : String
  created_at : Nat
  is_ai : Bool
deriving DecidableEq

/-- A background timeout task: `socketio.start_background_task(check_timeout,
user_id, request.sid)` started at line 284; it sleeps 8 seconds, so it fires
at `fires_at = joined_at + 8`. -/
structure Timer where
  user_id : Nat
  sid : Nat
  fires_at : Nat
deriving DecidableEq

/-- A SocketIO event emitted to one client socket, with the payload fields
the handlers actually send.  A human pairing sends `matched` with
`is_ai := false` and a `partner_name`; the timeout fallback sends `matched`
with `is_ai := true` and no partner field. -/
inductive Ev where
  | waiting (sid : Nat) (position : Nat)
  | matched (sid : Nat) (session_id : String) (room_url : String)
      (is_ai : Bool) (partner_name : Option String)
  | search_cancelled (sid : Nat)
  | session_ended (sid : Nat)
deriving DecidableEq

/-- The whole mutable state of the application: queue, database table,
active-sessions dict, outstanding background timeout tasks, the log of
emitted events, the log of room names whose deletion was requested
(`delete_daily_room` calls), and the current time. -/
structure AppState where
  waiting_queue : List WaitingEntry
  db_sessions : List SessionRec
  active_sessions : List (String × ActiveRec)
  timers : List Timer
  events : List Ev
  releases : List String
  now : Nat
deriving DecidableEq

/-- The initial state: empty queue, no sessions, nothing emitted. -/
def initState : AppState :=
  { waiting_queue := [], db_sessions := [], active_sessions := [],
    timers := [], events := [], releases := [], now := 0 }

/-- `DAILY_DOMAIN` (default `'growthstudent'`). -/
def DAILY_DOMAIN : String := "growthstudent"

/-- The deterministic fallback room url built from the requested room name:
`f"https://{DAILY_DOMAIN}.daily.co/{room_name}"` (lines 71, 113, 119). -/
def fallbackUrl (room_name : String) : String :=
  "https://" ++ DAILY_DOMAIN ++ ".daily.co/" ++ room_name

/-- `create_daily_room(room_name)` (lines 65-121): without an API key it
returns the demo url; with a key it POSTs to the API and returns the
response url and name on status 200, and on any other status or on an
exception it returns the fallback url derived from the requested name,
with the requested name unchanged. -/
def create_daily_room (hasKey : Bool) (r : HttpResult) (room_name : String) :
    String × String :=
  if hasKey = false then (fallbackUrl room_name, room_name)
  else
    match r with
    | .resp status url name =>
        if status = 200 then (url, name)
        else (fallbackUrl room_name, room_name)
    | .exn => (fallbackUrl room_name, room_name)

/-- `delete_daily_room(room_name)` (lines 123-141): true without a key,
otherwise true exactly on status 200; an exception yields false. -/
def delete_daily_room (hasKey : Bool) (r : HttpResult) : Bool :=
  if hasKey = false then true
  else
    match r with
    | .resp status _ _ => status = 200
    | .exn => false

/-- The fallback body of `check_timeout` (lines 293-328), run once the
membership test has succeeded: remove every queue entry of the user,
create a Daily room, insert an AI `VoiceSession` row (`user2_id` NULL,
`is_ai_session` true), register it in `active_sessions`, and emit
`matched` with `is_ai := true` to the stored sid. -/
def fallbackEffects (s : AppState) (uid sid : Nat) (env : ProvEnv) : AppState :=
  let q := s.waiting_queue.filter (fun u => u.user_id != uid)
  let rn := create_daily_room env.hasKey env.resp env.room_name
  { s with
    waiting_queue := q,
    db_sessions := s.db_sessions ++
      [{ session_id := env.session_id, room_name := rn.2, room_url := rn.1,
         user1_id := uid, user2_id := none, is_ai_session := true,
         status := .active, created_at := s.now, ended_at := none }],
    active_sessions := s.active_sessions ++
      [(env.session_id,
        { user1_id := uid, user2_id := none, room_name := rn.2,
          room_url := rn.1, created_at := s.now, is_ai := true })],
    events := s.events ++ [.matched sid env.session_id rn.1 true none] }

/-- `check_timeout(user_id, sid)` after its 8-second sleep (lines 290-328):
test whether the user is still in the queue and, if so, run the fallback
body; otherwise do nothing. -/
def check_timeout (s : AppState) (uid sid : Nat) (env : ProvEnv) : AppState :=
  if s.waiting_queue.any (fun u => u.user_id == uid) then
    fallbackEffects s uid sid env
  else s

/-- A background timeout task completing: time reaches its deadline, the
task leaves the set of outstanding tasks, and the body of `check_timeout`
runs. -/
def fireTimer (s : AppState) (tm : Timer) (env : ProvEnv) : AppState :=
  let s1 := { s with now := tm.fires_at, timers := s.timers.erase tm }
  check_timeout s1 tm.user_id tm.sid env

/-- `handle_join_queue` (lines 211-284) for an authenticated user: first
remove any pre-existing entry of this user from the queue (line 222); if the
remaining queue is non-empty, pop its front as the partner, create a room
and a `VoiceSession` row, register it in `active_sessions`, and emit
symmetric `matched` events — to the partner's sid with the caller's name,
then to the caller with the partner's name; if the queue is empty, append a
fresh entry, emit `waiting` with the queue length as position, and start
the 8-second timeout task. -/
def handle_join_queue (s : AppState) (t uid : Nat) (uname : String)
    (sid : Nat) (env : ProvEnv) : AppState :=
  let s0 := { s with now := t }
  let q := s0.waiting_queue.filter (fun u => u.user_id != uid)
  match q with
  | partner :: rest =>
      let rn := create_daily_room env.hasKey env.resp env.room_name
      { s0 with
        waiting_queue := rest,
        db_sessions := s0.db_sessions ++
          [{ session_id := env.session_id, room_name := rn.2,
             room_url := rn.1, user1_id := partner.user_id,
             user2_id := some uid, is_ai_session := false,
             status := .active, created_at := t, ended_at := none }],
        active_sessions := s0.active_sessions ++
          [(env.session_id,
            { user1_id := partner.user_id, user2_id := some uid,
              room_name := rn.2, room_url := rn.1, created_at := t,
              is_ai := false })],
        events := s0.events ++
          [.matched partner.sid env.session_id rn.1 false (some uname),
           .matched sid env.session_id rn.1 false (some partner.username)] }
  | [] =>
      let q1 := q ++ [{ user_id := uid, username := uname, sid := sid,
                        joined_at := t : WaitingEntry }]
      { s0 with
        waiting_queue := q1,
        events := s0.events ++ [.waiting sid q1.length],
        timers := s0.timers ++ [{ user_id := uid, sid := sid,
                                  fires_at := t + 8 }] }

/-- `handle_cancel_search` (lines 330-339): remove every queue entry of the
user and emit `search_cancelled` to the caller. -/
def handle_cancel_search (s : AppState) (uid sid : Nat) : AppState :=
  { s with
    waiting_queue := s.waiting_queue.filter (fun u => u.user_id != uid),
    events := s.events ++ [.search_cancelled sid] }

/-- `handle_disconnect` (lines 204-209): silently remove every queue entry
of the user. -/
def handle_disconnect (s : AppState) (uid : Nat) : AppState :=
  { s with
    waiting_queue := s.waiting_queue.filter (fun u => u.user_id != uid) }

/-- `logout` (lines 180-186), queue effect only: remove every queue entry
of the user. -/
def handle_logout (s : AppState) (uid : Nat) : AppState :=
  { s with
    waiting_queue := s.waiting_queue.filter (fun u => u.user_id != uid) }

/-- Set `status = 'ended'` and `ended_at = now` on the first row whose
`session_id` matches (the row `query.filter_by(session_id=...).first()`
returned). -/
def endFirst (l : List SessionRec) (sid : String) (t : Nat) :
    List SessionRec :=
  match l with
  | [] => []
  | x :: xs =>
      if x.session_id = sid then
        { x with status := .ended, ended_at := some t } :: xs
      else x :: endFirst xs sid t

/-- `handle_end_session(data)` (lines 341-361): if the payload carries a
truthy `session_id` and a `VoiceSession` row with that id exists, set its
status to `'ended'` and its `ended_at`, request deletion of its Daily room
(the result is ignored), and drop the id from `active_sessions`.  In every
case — id missing, falsy, unknown, or session already ended — emit exactly
one `session_ended` to the caller at the end. -/
def handle_end_session (s : AppState) (t caller : Nat)
    (data : Option String) (hasKey : Bool) (delResp : HttpResult) : AppState :=
  let s0 := { s with now := t }
  let s1 : AppState :=
    match data with
    | none => s0
    | some sid =>
        if sid = "" then s0
        else
          match s0.db_sessions.find? (fun r => r.session_id == sid) with
          | none => s0
          | some r =>
              let _ok := delete_daily_room hasKey delResp
              { s0 with
                db_sessions := endFirst s0.db_sessions sid t,
                releases := s0.releases ++ [r.room_name],
                active_sessions :=
                  s0.active_sessions.filter (fun p => p.1 != sid) }
  { s1 with events := s1.events ++ [.session_ended caller] }

/-- One atomic occurrence of a handler (or of a timeout task completing) in
a sequential execution. -/
inductive Op where
  | join (t uid : Nat) (uname : String) (sid : Nat) (env : ProvEnv)
  | fire (tm : Timer) (env : ProvEnv)
  | cancel (uid sid : Nat)
  | disconnect (uid : Nat)
  | logout (uid : Nat)
  | endSession (t caller : Nat) (data : Option String) (hasKey : Bool)
      (delResp : HttpResult)

/-- Apply one operation. -/
def applyOp (s : AppState) : Op → AppState
  | .join t uid uname sid env => handle_join_queue s t uid uname sid env
  | .fire tm env => fireTimer s tm env
  | .cancel uid sid => handle_cancel_search s uid sid
  | .disconnect uid => handle_disconnect s uid
  | .logout uid => handle_logout s uid
  | .endSession t caller data hasKey delResp =>
      handle_end_session s t caller data hasKey delResp

/-- Run a sequential execution. -/
def execOps (s : AppState) (ops : List Op) : AppState :=
  ops.foldl applyOp s

/-! The raw deque discipline of `waiting_queue`: entries are enqueued at
the back (`waiting_queue.append(...)`, line 274) and the matcher pops at
the front (`waiting_queue.popleft()`, line 226). -/

/-- Enqueue at the back of the deque (line 274). -/
def enqueue (q : List WaitingEntry) (e : WaitingEntry) : List WaitingEntry :=
  q ++ [e]

/-- Pop at the front of the deque (line 226): the front entry and the rest,
or `none` on an empty deque. -/
def popFront (q : List WaitingEntry) :
    Option (WaitingEntry × List WaitingEntry) :=
  match q with
  | [] => none
  | x :: xs => some (x, xs)

/-- Repeatedly pop the front, with fuel. -/
def drainAux : Nat → List WaitingEntry → List WaitingEntry
  | 0, _ => []
  | n + 1, q =>
      match popFront q with
      | none => []
      | some (x, r) => x :: drainAux n r

/-- The sequence of entries obtained by popping the front until empty. -/
def drainOrder (q : List WaitingEntry) : List WaitingEntry :=
  drainAux q.length q

/-- Whether an event is a `matched` event delivered to the given sid. -/
def isMatchedTo (sid : Nat) : Ev → Bool
  | .matched s _ _ _ _ => s == sid
  | _ => false

/-- How many `matched` events a sid received in a log. -/
def countMatchedTo (sid : Nat) (log : List Ev) : Nat :=
  log.countP (isMatchedTo sid)

/-! A finer execution model for the timeout race.  `check_timeout` is a
plain function running in a background thread; nothing in the code makes
its membership test (line 291) atomic with its fallback body (lines
293-328), so a `join_queue` handler may run in between.  A thread is either
a whole `handle_join_queue` call (treating it as one block only *adds*
atomicity, so any behaviour exhibited here is a behaviour of the code), or
a `check_timeout` task before or after its membership test. -/

/-- A runnable thread: a pending join handler, a timeout task about to
test membership, or a timeout task that has already computed its
membership flag and is about to run the conditional fallback body. -/
inductive TThread where
  | joinWhole (t uid : Nat) (uname : String) (sid : Nat) (env : ProvEnv)
  | timerCheck (tm : Timer) (env : ProvEnv)
  | timerAct (tm : Timer) (env : ProvEnv) (flag : Bool)
deriving DecidableEq

/-- A configuration: the shared state plus the runnable threads. -/
structure Conf where
  shared : AppState
  threads : List TThread
deriving DecidableEq

/-- Run one atomic step of thread `i`.  A `joinWhole` thread runs the whole
handler and exits; a `timerCheck` thread evaluates the membership test
(line 291) against the current queue and becomes a `timerAct`; a
`timerAct` thread completes its task, running the fallback body exactly
when the flag it computed earlier was true. -/
def stepThread (c : Conf) (i : Nat) : Conf :=
  match c.threads.get? i with
  | none => c
  | some th =>
      match th with
      | .joinWhole t uid uname sid env =>
          { shared := handle_join_queue c.shared t uid uname sid env,
            threads := c.threads.eraseIdx i }
      | .timerCheck tm env =>
          let s1 := { c.shared with now := tm.fires_at }
          let flag := s1.waiting_queue.any (fun u => u.user_id == tm.user_id)
          { shared := s1, threads := c.threads.set i (.timerAct tm env flag) }
      | .timerAct tm env flag =>
          let s1 := { c.shared with timers := c.shared.timers.erase tm }
          let s2 := if flag then fallbackEffects s1 tm.user_id tm.sid env
                    else s1
          { shared := s2, threads := c.threads.eraseIdx i }

/-- Run a schedule: at each step the named thread executes one atomic
block. -/
def crun (c : Conf) (sched : List Nat) : Conf :=
  sched.foldl stepThread c

/-! Helper lemmas. -/

/-- `handle_end_session` never touches the waiting queue. -/
lemma end_session_queue_eq (s : AppState) (t caller : Nat)
    (data : Option String) (hasKey : Bool) (delResp : HttpResult) :
    (handle_end_session s t caller data hasKey delResp).waiting_queue =
      s.waiting_queue := by
  unfold handle_end_session
  cases data with
  | none => rfl
  | some sid =>
      simp only
      split
      · rfl
      · split <;> rfl

/-- Every handler keeps the waiting queue at length at most one: a join
either empties it (pairing) or leaves exactly the caller's fresh entry,
and every other handler only removes entries. -/
lemma qlen_le_one_applyOp (s : AppState) (op : Op)
    (h : s.waiting_queue.length ≤ 1) :
    (applyOp s op).waiting_queue.length ≤ 1 := by
  cases op with
  | join t uid uname sid env =>
      simp only [applyOp]
      unfold handle_join_queue
      dsimp only
      cases hq : s.waiting_queue.filter (fun u => u.user_id != uid) with
      | nil => simp
      | cons p rest =>
          have hf : (s.waiting_queue.filter
              (fun u => u.user_id != uid)).length ≤ 1 :=
            le_trans (List.length_filter_le _ _) h
          rw [hq] at hf
          simp only [List.length_cons] at hf
          dsimp only
          omega
  | fire tm env =>
      simp only [applyOp]
      unfold fireTimer check_timeout fallbackEffects
      dsimp only
      split
      · simpa using le_trans (List.length_filter_le _ _) h
      · simpa using h
  | cancel uid sid =>
      simpa [applyOp, handle_cancel_search] using
        le_trans (List.length_filter_le _ _) h
  | disconnect uid =>
      simpa [applyOp, handle_disconnect] using
        le_trans (List.length_filter_le _ _) h
  | logout uid =>
      simpa [applyOp, handle_logout] using
        le_trans (List.length_filter_le _ _) h
  | endSession t caller data hasKey delResp =>
      simpa [applyOp, end_session_queue_eq] using h

/-- Executions preserve the length bound. -/
lemma qlen_le_one_execOps (ops : List Op) (s : AppState)
    (h : s.waiting_queue.length ≤ 1) :
    (execOps s ops).waiting_queue.length ≤ 1 := by
  induction ops generalizing s with
  | nil => simpa [execOps] using h
  | cons op ops ih =>
      simpa [execOps, List.foldl_cons] using
        ih (applyOp s op) (qlen_le_one_applyOp s op h)

/-- In every reachable state the waiting queue holds at most one entry:
`handle_join_queue` pairs whenever the queue is non-empty, so entries never
accumulate. -/
lemma qlen_le_one_reachable (ops : List Op) :
    (execOps initState ops).waiting_queue.length ≤ 1 := by
  have : initState.waiting_queue.length ≤ 1 := by simp [initState]
  exact qlen_le_one_execOps ops initState this

/-- A member of a reachable waiting queue is its only element. -/
lemma reachable_queue_singleton (ops : List Op) (A : WaitingEntry)
    (hA : A ∈ (execOps initState ops).waiting_queue) :
    (execOps initState ops).waiting_queue = [A] := by
  have hlen := qlen_le_one_reachable ops
  cases hq : (execOps initState ops).waiting_queue with
  | nil => rw [hq] at hA; cases hA
  | cons x xs =>
      rw [hq] at hA hlen
      cases xs with
      | nil =>
          cases hA with
          | head => rfl
          | tail _ hmem => cases hmem
      | cons y ys => simp at hlen

/-- Folding `enqueue` appends the entries in order. -/
lemma foldl_enqueue (es q : List WaitingEntry) :
    es.foldl enqueue q = q ++ es := by
  induction es generalizing q with
  | nil => simp [execOps]
  | cons e es ih => simp [List.foldl_cons, enqueue, ih]

/-- With enough fuel, repeatedly popping the front returns the whole
deque, front first. -/
lemma drainAux_eq (n : Nat) (q : List WaitingEntry) (h : q.length ≤ n) :
    drainAux n q = q := by
  induction n generalizing q with
  | zero =>
      cases q with
      | nil => rfl
      | cons x xs => simp at h
  | succ n ih =>
      cases q with
      | nil => rfl
      | cons x xs =>
          have hx : xs.length ≤ n := by
            simp only [List.length_cons] at h
            omega
          simp [drainAux, popFront, ih xs hx]

/-- Entries surviving the self-removal filter of `handle_join_queue` never
carry the calling user's id. -/
lemma countP_uid_filter (q : List WaitingEntry) (uid : Nat) :
    (q.filter (fun u => u.user_id != uid)).countP
      (fun u => u.user_id == uid) = 0 := by
  rw [List.countP_eq_zero]
  intro a ha
  have h2 := (List.mem_filter.mp ha).2
  simpa using h2

/-- The row returned by `find?` is, with its status flipped and `ended_at`
set, a row of the table updated by `endFirst`. -/
lemma endFirst_mem (l : List SessionRec) (sid : String) (t : Nat)
    (r : SessionRec)
    (h : l.find? (fun x => x.session_id == sid) = some r) :
    { r with status := .ended, ended_at := some t } ∈ endFirst l sid t := by
  induction l with
  | nil => simp at h
  | cons x xs ih =>
      by_cases hx : x.session_id = sid
      · rw [List.find?_cons_of_pos _ (by simpa using hx)] at h
        cases h
        simp [endFirst, hx]
      · rw [List.find?_cons_of_neg _ (by simpa using hx)] at h
        simp only [endFirst, if_neg hx]
        exact List.mem_cons_of_mem _ (ih h)

/-! Concrete oracle environments used by the closed scenario theorems. -/

/-- A successful provisioning response. -/
def envOkA : ProvEnv :=
  { hasKey := true, resp := .resp 200 "urlA" "roomA",
    session_id := "SA", room_name := "reqA" }

/-- A second successful provisioning response. -/
def envOkB : ProvEnv :=
  { hasKey := true, resp := .resp 200 "urlB" "roomB",
    session_id := "SB", room_name := "reqB" }

/-- A third successful provisioning response. -/
def envOkC : ProvEnv :=
  { hasKey := true, resp := .resp 200 "urlC" "roomC",
    session_id := "SC", room_name := "reqC" }

/-- A provisioning call that raises. -/
def envExn : ProvEnv :=
  { hasKey := true, resp := .exn, session_id := "SX", room_name := "reqX" }

/-- Whether a Daily.co API outcome is a failure of room creation: a
non-200 status or an exception. -/
def roomFailed : HttpResult → Bool
  | .resp status _ _ => status != 200
  | .exn => true

/-! Claim theorems. -/

/-- C5: in every reachable state at most one WaitingEntry per userID
exists in the queue (the queued user ids are pairwise distinct), and —
the no-op-then-replace mechanism — a `handle_join_queue` call from any
state whatsoever, because it first removes every pre-existing entry of
the caller, leaves at most one entry of the caller in the queue. -/
theorem C5_at_most_one_entry_per_user :
    (∀ ops : List Op,
      ((execOps initState ops).waiting_queue.map WaitingEntry.user_id).Nodup) ∧
    (∀ (s : AppState) (t uid : Nat) (uname : String) (sid : Nat)
        (env : ProvEnv),
      ((handle_join_queue s t uid uname sid env).waiting_queue.countP
        (fun u => u.user_id == uid)) ≤ 1) := by
  constructor
  · intro ops
    have h := qlen_le_one_reachable ops
    cases hq : (execOps initState ops).waiting_queue with
    | nil => simp
    | cons x xs =>
        rw [hq] at h
        cases xs with
        | nil => simp
        | cons y ys => simp at h
  · intro s t uid uname sid env
    unfold handle_join_queue
    dsimp only
    cases hq : s.waiting_queue.filter (fun u => u.user_id != uid) with
    | nil =>
        have h0 := countP_uid_filter s.waiting_queue uid
        rw [hq] at h0
        simp
    | cons p rest =>
        have h0 := countP_uid_filter s.waiting_queue uid
        rw [hq] at h0
        dsimp only
        calc (rest.countP (fun u => u.user_id == uid))
            ≤ ((p :: rest).countP (fun u => u.user_id == uid)) := by
              rw [List.countP_cons]
              exact Nat.le_add_right _ _
          _ = 0 := h0
          _ ≤ 1 := by omega

/-- C6: the queue is strict FIFO.  First, the raw deque discipline:
enqueuing a sequence of entries at the back and then repeatedly popping
the front returns them in arrival order.  Second, in any reachable state
that a joining user B observes as holding a waiting entry A (of another
user), B's join pops exactly A: the queue is emptied, the symmetric
matched events go to A and B naming each other, and the one new session
has A and B as its participants — never an unrelated third entry. -/
theorem C6_fifo :
    (∀ es : List WaitingEntry, drainOrder (es.foldl enqueue []) = es) ∧
    (∀ (ops : List Op) (A : WaitingEntry) (t uid : Nat) (uname : String)
        (sid : Nat) (env : ProvEnv),
      A ∈ (execOps initState ops).waiting_queue → uid ≠ A.user_id →
      (handle_join_queue (execOps initState ops) t uid uname sid
          env).waiting_queue = [] ∧
      (handle_join_queue (execOps initState ops) t uid uname sid
          env).events =
        (execOps initState ops).events ++
          [.matched A.sid env.session_id
             (create_daily_room env.hasKey env.resp env.room_name).1 false
             (some uname),
           .matched sid env.session_id
             (create_daily_room env.hasKey env.resp env.room_name).1 false
             (some A.username)] ∧
      ∃ r, (handle_join_queue (execOps initState ops) t uid uname sid
              env).db_sessions =
            (execOps initState ops).db_sessions ++ [r] ∧
          r.user1_id = A.user_id ∧ r.user2_id = some uid) := by
  constructor
  · intro es
    rw [foldl_enqueue, List.nil_append, drainOrder, drainAux_eq _ _ le_rfl]
  · intro ops A t uid uname sid env hA hne
    have hsing := reachable_queue_singleton ops A hA
    have hfA : (A.user_id != uid) = true := by
      simpa using (Ne.symm hne)
    unfold handle_join_queue
    dsimp only
    rw [hsing]
    simp only [List.filter, hfA]
    exact ⟨trivial, trivial, _, rfl, rfl, rfl⟩

/-- Witness for C6: with user 1 queued by a first join, a join by user 2
pops exactly user 1's entry. -/
theorem C6_fifo_witness :
    ((⟨1, "alice", 10, 0⟩ : WaitingEntry) ∈
        (execOps initState [.join 0 1 "alice" 10 envOkA]).waiting_queue ∧
      (2 : Nat) ≠ (⟨1, "alice", 10, 0⟩ : WaitingEntry).user_id) ∧
    ((handle_join_queue (execOps initState [.join 0 1 "alice" 10 envOkA])
        8 2 "bob" 20 envOkB).waiting_queue = [] ∧
      (handle_join_queue (execOps initState [.join 0 1 "alice" 10 envOkA])
          8 2 "bob" 20 envOkB).events =
        (execOps initState [.join 0 1 "alice" 10 envOkA]).events ++
          [.matched (⟨1, "alice", 10, 0⟩ : WaitingEntry).sid
             envOkB.session_id
             (create_daily_room envOkB.hasKey envOkB.resp
               envOkB.room_name).1 false (some "bob"),
           .matched 20 envOkB.session_id
             (create_daily_room envOkB.hasKey envOkB.resp
               envOkB.room_name).1 false
             (some (⟨1, "alice", 10, 0⟩ : WaitingEntry).username)] ∧
      ∃ r, (handle_join_queue (execOps initState [.join 0 1 "alice" 10 envOkA])
              8 2 "bob" 20 envOkB).db_sessions =
            (execOps initState [.join 0 1 "alice" 10 envOkA]).db_sessions ++
              [r] ∧
          r.user1_id = (⟨1, "alice", 10, 0⟩ : WaitingEntry).user_id ∧
          r.user2_id = some 2) :=
  ⟨⟨by decide, by decide⟩,
    C6_fifo.2 [.join 0 1 "alice" 10 envOkA] ⟨1, "alice", 10, 0⟩ 8 2 "bob" 20
      envOkB (by decide) (by decide)⟩

/-- C7: scenario A.  A user joining with an empty queue receives `waiting`
with position 1; a second user joining within the 8-unit deadline makes
both receive `matched` with `is_ai := false`, and the payloads are
symmetric: the first user's event names the second and vice versa. -/
theorem C7_scenario_A (t1 t2 u1 u2 : Nat) (n1 n2 : String) (sid1 sid2 : Nat)
    (envA envB : ProvEnv) (hu : u1 ≠ u2) (hdl : t2 ≤ t1 + 8) :
    (handle_join_queue initState t1 u1 n1 sid1 envA).events =
      [.waiting sid1 1] ∧
    (handle_join_queue (handle_join_queue initState t1 u1 n1 sid1 envA)
        t2 u2 n2 sid2 envB).events =
      [.waiting sid1 1,
       .matched sid1 envB.session_id
         (create_daily_room envB.hasKey envB.resp envB.room_name).1 false
         (some n2),
       .matched sid2 envB.session_id
         (create_daily_room envB.hasKey envB.resp envB.room_name).1 false
         (some n1)] := by
  have hfA : (u1 != u2) = true := by simpa using hu
  constructor
  · simp [handle_join_queue, initState]
  · simp [handle_join_queue, initState, List.filter, hfA]

/-- Witness for C7: users 1 and 2 with names alice and bob. -/
theorem C7_scenario_A_witness :
    ((1 : Nat) ≠ 2 ∧ (1 : Nat) ≤ 0 + 8) ∧
    ((handle_join_queue initState 0 1 "alice" 10 envOkA).events =
        [.waiting 10 1] ∧
      (handle_join_queue (handle_join_queue initState 0 1 "alice" 10 envOkA)
          1 2 "bob" 20 envOkB).events =
        [.waiting 10 1,
         .matched 10 envOkB.session_id
           (create_daily_room envOkB.hasKey envOkB.resp envOkB.room_name).1
           false (some "bob"),
         .matched 20 envOkB.session_id
           (create_daily_room envOkB.hasKey envOkB.resp envOkB.room_name).1
           false (some "alice")]) :=
  ⟨⟨by decide, by decide⟩,
    C7_scenario_A 0 1 1 2 "alice" "bob" 10 20 envOkA envOkB (by decide)
      (by decide)⟩

/-- C8: scenario B.  A user joins with an empty queue; the join arms
exactly one timeout task with the fixed deadline of 8 time-units.  If no
second user joins before it fires, the firing removes the user's entry,
registers a session with `is_ai_session := true` and no second
participant, and the sole participant receives a `matched` event marked
as fallback. -/
theorem C8_scenario_B (t u : Nat) (n : String) (sid : Nat)
    (envA envB : ProvEnv) :
    (handle_join_queue initState t u n sid envA).timers =
      [{ user_id := u, sid := sid, fires_at := t + 8 }] ∧
    (fireTimer (handle_join_queue initState t u n sid envA)
        { user_id := u, sid := sid, fires_at := t + 8 }
        envB).waiting_queue = [] ∧
    (fireTimer (handle_join_queue initState t u n sid envA)
        { user_id := u, sid := sid, fires_at := t + 8 }
        envB).db_sessions =
      [{ session_id := envB.session_id,
         room_name := (create_daily_room envB.hasKey envB.resp
           envB.room_name).2,
         room_url := (create_daily_room envB.hasKey envB.resp
           envB.room_name).1,
         user1_id := u, user2_id := none, is_ai_session := true,
         status := .active, created_at := t + 8, ended_at := none }] ∧
    (fireTimer (handle_join_queue initState t u n sid envA)
        { user_id := u, sid := sid, fires_at := t + 8 }
        envB).events =
      [.waiting sid 1,
       .matched sid envB.session_id
         (create_daily_room envB.hasKey envB.resp envB.room_name).1
         true none] := by
  simp [handle_join_queue, initState, fireTimer, check_timeout,
    fallbackEffects, List.filter]

/-- On a failed creation call (non-200 status or exception),
`create_daily_room` returns the deterministic fallback url derived from
the requested name, with the requested name unchanged. -/
lemma create_daily_room_failed (r : HttpResult) (name : String)
    (h : roomFailed r = true) :
    create_daily_room true r name = (fallbackUrl name, name) := by
  cases r with
  | resp status url nm =>
      have hs : status ≠ 200 := by simpa [roomFailed] using h
      simp [create_daily_room, hs]
  | exn => simp [create_daily_room]

/-- C9: provisioning failure is recovered locally.  (1) On any failed
creation (error status or exception), `create_daily_room` substitutes the
deterministic fallback url derived from the requested name.  (2) A join
that pairs proceeds with the match on such a failure: both `matched`
events carry the fallback url and the session is still registered.
(3) The result of `handle_end_session` does not depend on the outcome of
the room release at all.  (4) The session found by an end call is marked
ended regardless of the release outcome. -/
theorem C9_provisioning_failure_recovered :
    (∀ (name : String) (r : HttpResult), roomFailed r = true →
        create_daily_room true r name = (fallbackUrl name, name)) ∧
    (∀ (s : AppState) (t uid : Nat) (uname : String) (sid : Nat)
        (env : ProvEnv) (p : WaitingEntry) (rest : List WaitingEntry),
      env.hasKey = true → roomFailed env.resp = true →
      s.waiting_queue.filter (fun u => u.user_id != uid) = p :: rest →
      (handle_join_queue s t uid uname sid env).events =
        s.events ++
          [.matched p.sid env.session_id (fallbackUrl env.room_name) false
             (some uname),
           .matched sid env.session_id (fallbackUrl env.room_name) false
             (some p.username)] ∧
      ∃ r, (handle_join_queue s t uid uname sid env).db_sessions =
            s.db_sessions ++ [r] ∧
          r.room_url = fallbackUrl env.room_name ∧ r.status = .active) ∧
    (∀ (s : AppState) (t caller : Nat) (data : Option String)
        (hasKey : Bool) (r1 r2 : HttpResult),
      handle_end_session s t caller data hasKey r1 =
        handle_end_session s t caller data hasKey r2) ∧
    (∀ (s : AppState) (t caller : Nat) (sid : String) (hasKey : Bool)
        (delResp : HttpResult) (rrec : SessionRec),
      sid ≠ "" →
      s.db_sessions.find? (fun x => x.session_id == sid) = some rrec →
      { rrec with status := .ended, ended_at := some t } ∈
        (handle_end_session s t caller (some sid) hasKey
          delResp).db_sessions) := by
  refine ⟨fun name r h => create_daily_room_failed r name h, ?_, ?_, ?_⟩
  · intro s t uid uname sid env p rest hk hfail hq
    have hcr : create_daily_room env.hasKey env.resp env.room_name =
        (fallbackUrl env.room_name, env.room_name) := by
      rw [hk]; exact create_daily_room_failed env.resp env.room_name hfail
    unfold handle_join_queue
    dsimp only
    rw [hq, hcr]
    exact ⟨rfl, _, rfl, rfl, rfl⟩
  · intro s t caller data hasKey r1 r2
    rfl
  · intro s t caller sid hasKey delResp rrec hsid hfind
    unfold handle_end_session
    dsimp only
    rw [if_neg hsid, hfind]
    exact endFirst_mem _ _ _ _ hfind

/-- Witness for C9: an exception during room creation while user 2 pairs
with queued user 1, and a failing release while ending the session. -/
theorem C9_provisioning_failure_recovered_witness :
    (roomFailed HttpResult.exn = true ∧
      create_daily_room true .exn "reqX" = (fallbackUrl "reqX", "reqX")) ∧
    ((envExn.hasKey = true ∧ roomFailed envExn.resp = true ∧
        (execOps initState
            [.join 0 1 "alice" 10 envOkA]).waiting_queue.filter
            (fun u => u.user_id != 2) =
          [⟨1, "alice", 10, 0⟩]) ∧
      (handle_join_queue (execOps initState [.join 0 1 "alice" 10 envOkA])
          1 2 "bob" 20 envExn).events =
        (execOps initState [.join 0 1 "alice" 10 envOkA]).events ++
          [.matched (⟨1, "alice", 10, 0⟩ : WaitingEntry).sid
             envExn.session_id (fallbackUrl envExn.room_name) false
             (some "bob"),
           .matched 20 envExn.session_id (fallbackUrl envExn.room_name)
             false (some (⟨1, "alice", 10, 0⟩ : WaitingEntry).username)] ∧
      ∃ r, (handle_join_queue (execOps initState
              [.join 0 1 "alice" 10 envOkA]) 1 2 "bob" 20 envExn).db_sessions =
            (execOps initState [.join 0 1 "alice" 10 envOkA]).db_sessions ++
              [r] ∧
          r.room_url = fallbackUrl envExn.room_name ∧ r.status = .active) ∧
    (handle_end_session initState 0 1 (some "S") true (.resp 200 "x" "y") =
      handle_end_session initState 0 1 (some "S") true .exn) ∧
    (("SB" : String) ≠ "" ∧
      (execOps initState [.join 0 1 "alice" 10 envOkA,
          .join 1 2 "bob" 20 envOkB]).db_sessions.find?
          (fun x => x.session_id == "SB") =
        some ⟨"SB", "roomB", "urlB", 1, some 2, false, .active, 1, none⟩ ∧
      ({ (⟨"SB", "roomB", "urlB", 1, some 2, false, .active, 1, none⟩ :
            SessionRec) with
          status := .ended, ended_at := some 3 } ∈
        (handle_end_session (execOps initState [.join 0 1 "alice" 10 envOkA,
            .join 1 2 "bob" 20 envOkB]) 3 1 (some "SB") true
          .exn).db_sessions)) :=
  ⟨⟨by decide, C9_provisioning_failure_recovered.1 "reqX" .exn (by decide)⟩,
   ⟨⟨by decide, by decide, by decide⟩,
     C9_provisioning_failure_recovered.2.1
       (execOps initState [.join 0 1 "alice" 10 envOkA]) 1 2 "bob" 20 envExn
       ⟨1, "alice", 10, 0⟩ [] (by decide) (by decide) (by decide)⟩,
   C9_provisioning_failure_recovered.2.2.1 initState 0 1 (some "S") true
     (.resp 200 "x" "y") .exn,
   ⟨by decide, by decide,
     C9_provisioning_failure_recovered.2.2.2
       (execOps initState [.join 0 1 "alice" 10 envOkA,
         .join 1 2 "bob" 20 envOkB]) 3 1 "SB" true .exn
       ⟨"SB", "roomB", "urlB", 1, some 2, false, .active, 1, none⟩
       (by decide) (by decide)⟩⟩

/-- C10: every `handle_end_session` call appends exactly one
`session_ended` event to the caller, whatever the payload: the emit sits
after the conditional block, so a missing, falsy, unknown, or
already-ended session id still yields the one notification. -/
theorem C10_session_ended_unconditional (s : AppState) (t caller : Nat)
    (data : Option String) (hasKey : Bool) (delResp : HttpResult) :
    (handle_end_session s t caller data hasKey delResp).events =
      s.events ++ [.session_ended caller] := by
  unfold handle_end_session
  cases data with
  | none => rfl
  | some sid =>
      dsimp only
      split
      · rfl
      · split
        · rfl
        · rfl

/-- C1 counterexample: `handle_end_session` never checks the stored
status, so ending the same sessionID twice performs the side effects
twice.  Users 1 and 2 pair into session SA with room roomA; the first end
releases the room and marks the row ended; the second call on the same
(already ended) sessionID releases the room again — the release log
holds roomA twice, refuting exactly-once. -/
theorem C1_counterexample :
    ((execOps initState [.join 0 1 "alice" 10 envOkA,
        .join 1 2 "bob" 20 envOkA,
        .endSession 2 10 (some "SA") true (.resp 200 "x" "y")]).releases =
      ["roomA"] ∧
     ((execOps initState [.join 0 1 "alice" 10 envOkA,
        .join 1 2 "bob" 20 envOkA,
        .endSession 2 10 (some "SA") true
          (.resp 200 "x" "y")]).db_sessions.map SessionRec.status) =
      [.ended]) ∧
    (execOps initState [.join 0 1 "alice" 10 envOkA,
        .join 1 2 "bob" 20 envOkA,
        .endSession 2 10 (some "SA") true (.resp 200 "x" "y"),
        .endSession 3 10 (some "SA") true (.resp 200 "x" "y")]).releases =
      ["roomA", "roomA"] := by
  decide

/-- C1 amended: ending a missing or unknown sessionID is a no-op apart
from the `session_ended` event — no error, no release.  But termination
is not idempotent: the handler does not check the status, so every call
whose sessionID resolves to an existing row — including an already ended
one — sets `ended_at` again and requests the room release again. -/
theorem C1_amended_end_session (s : AppState) (t caller : Nat)
    (hasKey : Bool) (delResp : HttpResult) :
    (handle_end_session s t caller none hasKey delResp =
      { s with now := t, events := s.events ++ [.session_ended caller] }) ∧
    (∀ sid : String, sid ≠ "" →
      s.db_sessions.find? (fun r => r.session_id == sid) = none →
      handle_end_session s t caller (some sid) hasKey delResp =
        { s with now := t,
                 events := s.events ++ [.session_ended caller] }) ∧
    (∀ (sid : String) (r : SessionRec), sid ≠ "" →
      s.db_sessions.find? (fun x => x.session_id == sid) = some r →
      (handle_end_session s t caller (some sid) hasKey delResp).releases =
        s.releases ++ [r.room_name]) := by
  refine ⟨rfl, ?_, ?_⟩
  · intro sid hsid hfind
    unfold handle_end_session
    dsimp only
    rw [if_neg hsid, hfind]
  · intro sid r hsid hfind
    unfold handle_end_session
    dsimp only
    rw [if_neg hsid, hfind]

/-- Witness for C1 amended: ending the paired session SA releases roomA
once per call that finds it. -/
theorem C1_amended_end_session_witness :
    (("SA" : String) ≠ "" ∧
      (execOps initState [.join 0 1 "alice" 10 envOkA,
          .join 1 2 "bob" 20 envOkA]).db_sessions.find?
          (fun x => x.session_id == "SA") =
        some ⟨"SA", "roomA", "urlA", 1, some 2, false, .active, 1, none⟩) ∧
    (handle_end_session (execOps initState [.join 0 1 "alice" 10 envOkA,
        .join 1 2 "bob" 20 envOkA]) 5 10 (some "SA") true .exn).releases =
      (execOps initState [.join 0 1 "alice" 10 envOkA,
        .join 1 2 "bob" 20 envOkA]).releases ++
        [(⟨"SA", "roomA", "urlA", 1, some 2, false, .active, 1,
            none⟩ : SessionRec).room_name] :=
  ⟨⟨by decide, by decide⟩,
    (C1_amended_end_session (execOps initState [.join 0 1 "alice" 10 envOkA,
        .join 1 2 "bob" 20 envOkA]) 5 10 true .exn).2.2 "SA"
      ⟨"SA", "roomA", "urlA", 1, some 2, false, .active, 1, none⟩
      (by decide) (by decide)⟩

/-- C2 counterexample: an interleaving where both outcomes occur.  User 1
is waiting with an armed timeout task; the task evaluates its membership
test (true), then user 2's whole join runs and pairs with user 1's entry,
then the task's fallback body runs anyway.  User 1's socket receives two
`matched` events for one queue attempt, and both a human session and a
fallback session are registered for it. -/
theorem C2_counterexample :
    ((⟨1, 10, 8⟩ : Timer) ∈
      (handle_join_queue initState 0 1 "alice" 10 envOkA).timers) ∧
    (countMatchedTo 10 (crun
        { shared := handle_join_queue initState 0 1 "alice" 10 envOkA,
          threads := [.timerCheck ⟨1, 10, 8⟩ envExn,
                      .joinWhole 8 2 "bob" 20 envOkB] }
        [0, 1, 0]).shared.events = 2 ∧
     (∃ r ∈ (crun
        { shared := handle_join_queue initState 0 1 "alice" 10 envOkA,
          threads := [.timerCheck ⟨1, 10, 8⟩ envExn,
                      .joinWhole 8 2 "bob" 20 envOkB] }
        [0, 1, 0]).shared.db_sessions,
        r.is_ai_session = false ∧ r.user1_id = 1 ∧ r.user2_id = some 2) ∧
     (∃ r ∈ (crun
        { shared := handle_join_queue initState 0 1 "alice" 10 envOkA,
          threads := [.timerCheck ⟨1, 10, 8⟩ envExn,
                      .joinWhole 8 2 "bob" 20 envOkB] }
        [0, 1, 0]).shared.db_sessions,
        r.is_ai_session = true ∧ r.user1_id = 1)) := by
  decide

/-- C2 amended: exactly-one holds only when the timeout task's membership
test and fallback body run without an interleaved join.  With user 1
waiting and a timer armed, running the second user's join and the whole
timeout task atomically in either order delivers exactly one `matched`
event to user 1's socket: join first means the later check fails and no
fallback happens; timer first means the entry is removed and the join
finds an empty queue.  (The counterexample shows the code does not make
the two halves atomic, so an interleaving with both outcomes exists.) -/
theorem C2_amended_serialized (t1 u1 : Nat) (n1 : String) (sid1 : Nat)
    (envA : ProvEnv) (t2 u2 : Nat) (n2 : String) (sid2 : Nat)
    (envB envC : ProvEnv) (b : Bool)
    (hu : u2 ≠ u1) (hs : sid2 ≠ sid1) :
    countMatchedTo sid1
      (execOps (handle_join_queue initState t1 u1 n1 sid1 envA)
        (if b then
          [Op.join t2 u2 n2 sid2 envB,
           Op.fire ⟨u1, sid1, t1 + 8⟩ envC]
         else
          [Op.fire ⟨u1, sid1, t1 + 8⟩ envC,
           Op.join t2 u2 n2 sid2 envB])).events = 1 := by
  have hfA : (u1 != u2) = true := by simpa using (Ne.symm hu)
  have hs2 : (sid2 == sid1) = false := by simpa using hs
  cases b with
  | true =>
      simp [execOps, applyOp, handle_join_queue, fireTimer, check_timeout,
        fallbackEffects, initState, countMatchedTo, isMatchedTo,
        List.countP_cons, List.filter, hfA, hs2]
  | false =>
      simp [execOps, applyOp, handle_join_queue, fireTimer, check_timeout,
        fallbackEffects, initState, countMatchedTo, isMatchedTo,
        List.countP_cons, List.filter, hfA, hs2]

/-- Witness for C2 amended: users 1 and 2, both serialized orders. -/
theorem C2_amended_serialized_witness :
    ((2 : Nat) ≠ 1 ∧ (20 : Nat) ≠ 10) ∧
    countMatchedTo 10
      (execOps (handle_join_queue initState 0 1 "alice" 10 envOkA)
        (if true then
          [Op.join 8 2 "bob" 20 envOkB, Op.fire ⟨1, 10, 0 + 8⟩ envExn]
         else
          [Op.fire ⟨1, 10, 0 + 8⟩ envExn,
           Op.join 8 2 "bob" 20 envOkB])).events = 1 ∧
    countMatchedTo 10
      (execOps (handle_join_queue initState 0 1 "alice" 10 envOkA)
        (if false then
          [Op.join 8 2 "bob" 20 envOkB, Op.fire ⟨1, 10, 0 + 8⟩ envExn]
         else
          [Op.fire ⟨1, 10, 0 + 8⟩ envExn,
           Op.join 8 2 "bob" 20 envOkB])).events = 1 :=
  ⟨⟨by decide, by decide⟩,
    C2_amended_serialized 0 1 "alice" 10 envOkA 8 2 "bob" 20 envOkB envExn
      true (by decide) (by decide),
    C2_amended_serialized 0 1 "alice" 10 envOkA 8 2 "bob" 20 envOkB envExn
      false (by decide) (by decide)⟩

/-- C3 counterexample: nothing ever cancels a timeout task.  User 1 joins
at time 0 (timer armed for time 8), is paired away at time 3, re-joins at
time 5 — inside the original deadline window.  The stale timer from the
consumed entry is still outstanding, and when it fires at time 8 it
removes the re-enqueued entry and emits a fallback `matched`: user 1's
original socket has now received two `matched` events. -/
theorem C3_counterexample :
    let s3 := execOps initState [.join 0 1 "alice" 10 envOkA,
      .join 3 2 "bob" 20 envOkB, .join 5 1 "alice" 11 envOkC]
    ((⟨1, 10, 8⟩ : Timer) ∈ s3.timers ∧
     (∃ r ∈ s3.db_sessions, r.is_ai_session = false ∧ r.user1_id = 1 ∧
        r.user2_id = some 2) ∧
     s3.waiting_queue = [⟨1, "alice", 11, 5⟩]) ∧
    ((fireTimer s3 ⟨1, 10, 8⟩ envExn).waiting_queue = [] ∧
     (∃ r ∈ (fireTimer s3 ⟨1, 10, 8⟩ envExn).db_sessions,
        r.is_ai_session = true ∧ r.user1_id = 1) ∧
     countMatchedTo 10 (fireTimer s3 ⟨1, 10, 8⟩ envExn).events = 2) := by
  decide

/-- C3 amended: the code cancels no timers; instead the fired task
re-checks queue membership.  If the userID is absent from the queue when
the timer fires, the task performs none of its fallback side effects (the
state only records the task's completion); but whenever the userID is
present — including via an entry re-enqueued after the original one was
consumed — the task runs the fallback against it. -/
theorem C3_amended_no_cancellation (s : AppState) (tm : Timer)
    (env : ProvEnv) :
    (s.waiting_queue.any (fun u => u.user_id == tm.user_id) = false →
      fireTimer s tm env =
        { s with now := tm.fires_at, timers := s.timers.erase tm }) ∧
    (s.waiting_queue.any (fun u => u.user_id == tm.user_id) = true →
      (fireTimer s tm env).events =
        s.events ++
          [.matched tm.sid env.session_id
            (create_daily_room env.hasKey env.resp env.room_name).1
            true none]) := by
  constructor
  · intro h
    simp [fireTimer, check_timeout, h]
  · intro h
    simp [fireTimer, check_timeout, fallbackEffects, h]

/-- Witness for C3 amended: an absent user leaves the state untouched; a
present user gets the fallback event. -/
theorem C3_amended_no_cancellation_witness :
    (initState.waiting_queue.any (fun u => u.user_id == (1 : Nat)) =
        false ∧
      fireTimer initState ⟨1, 10, 8⟩ envExn =
        { initState with now := (⟨1, 10, 8⟩ : Timer).fires_at,
                         timers := initState.timers.erase ⟨1, 10, 8⟩ }) ∧
    ((handle_join_queue initState 0 1 "alice" 10 envOkA).waiting_queue.any
        (fun u => u.user_id == (1 : Nat)) = true ∧
      (fireTimer (handle_join_queue initState 0 1 "alice" 10 envOkA)
          ⟨1, 10, 8⟩ envExn).events =
        (handle_join_queue initState 0 1 "alice" 10 envOkA).events ++
          [.matched 10 envExn.session_id
            (create_daily_room envExn.hasKey envExn.resp
              envExn.room_name).1 true none]) :=
  ⟨⟨by decide,
     (C3_amended_no_cancellation initState ⟨1, 10, 8⟩ envExn).1 (by decide)⟩,
   ⟨by decide,
     (C3_amended_no_cancellation
        (handle_join_queue initState 0 1 "alice" 10 envOkA) ⟨1, 10, 8⟩
        envExn).2 (by decide)⟩⟩

/-- C4 counterexample: `handle_join_queue` never consults the session
registry, so a participant of a still-active session who joins again is
simultaneously a queued waiter and an active-session participant.  Users
1 and 2 pair (session stays active — nobody ends it); user 1 then joins
the queue again. -/
theorem C4_counterexample :
    let s := execOps initState [.join 0 1 "alice" 10 envOkA,
      .join 1 2 "bob" 20 envOkB, .join 2 1 "alice" 10 envOkC]
    (1 ∈ s.waiting_queue.map WaitingEntry.user_id) ∧
    ∃ r ∈ s.db_sessions, r.status = .active ∧
      (r.user1_id = 1 ∨ r.user2_id = some 1) := by
  decide

/-- C4 amended: the mutual exclusion is not maintained across calls — an
active-session participant may re-join the queue (see the counterexample)
— but each single `handle_join_queue` call leaves its caller in exactly
one of the two places: either enqueued with the session table unchanged,
or absent from the queue and a participant of the one newly registered
active session. -/
theorem C4_amended_join_exclusive (s : AppState) (t uid : Nat)
    (uname : String) (sid : Nat) (env : ProvEnv) :
    (s.waiting_queue.filter (fun u => u.user_id != uid) = [] →
      uid ∈ (handle_join_queue s t uid uname sid env).waiting_queue.map
          WaitingEntry.user_id ∧
      (handle_join_queue s t uid uname sid env).db_sessions =
        s.db_sessions) ∧
    (∀ (p : WaitingEntry) (rest : List WaitingEntry),
      s.waiting_queue.filter (fun u => u.user_id != uid) = p :: rest →
      uid ∉ (handle_join_queue s t uid uname sid env).waiting_queue.map
          WaitingEntry.user_id ∧
      ∃ r, (handle_join_queue s t uid uname sid env).db_sessions =
            s.db_sessions ++ [r] ∧
          r.user2_id = some uid ∧ r.status = .active) := by
  constructor
  · intro hq
    unfold handle_join_queue
    dsimp only
    rw [hq]
    exact ⟨by simp, rfl⟩
  · intro p rest hq
    unfold handle_join_queue
    dsimp only
    rw [hq]
    refine ⟨?_, _, rfl, rfl, rfl⟩
    intro hmem
    rcases List.mem_map.mp hmem with ⟨a, ha, hauid⟩
    have haf : a ∈ s.waiting_queue.filter (fun u => u.user_id != uid) := by
      rw [hq]; exact List.mem_cons_of_mem _ ha
    have h2 := (List.mem_filter.mp haf).2
    rw [hauid] at h2
    simp at h2

/-- Witness for C4 amended: user 2 joins while user 1 is queued (pair
branch) and user 1 joins the empty queue (enqueue branch). -/
theorem C4_amended_join_exclusive_witness :
    ((initState.waiting_queue.filter (fun u => u.user_id != (1 : Nat)) =
        [] ∧
      (1 : Nat) ∈ (handle_join_queue initState 0 1 "alice" 10
          envOkA).waiting_queue.map WaitingEntry.user_id ∧
      (handle_join_queue initState 0 1 "alice" 10 envOkA).db_sessions =
        initState.db_sessions)) ∧
    (((handle_join_queue initState 0 1 "alice" 10
          envOkA).waiting_queue.filter (fun u => u.user_id != (2 : Nat)) =
        [⟨1, "alice", 10, 0⟩] ∧
      (2 : Nat) ∉ (handle_join_queue
          (handle_join_queue initState 0 1 "alice" 10 envOkA) 1 2 "bob" 20
          envOkB).waiting_queue.map WaitingEntry.user_id ∧
      ∃ r, (handle_join_queue
            (handle_join_queue initState 0 1 "alice" 10 envOkA) 1 2 "bob"
            20 envOkB).db_sessions =
          (handle_join_queue initState 0 1 "alice" 10 envOkA).db_sessions ++
            [r] ∧
        r.user2_id = some 2 ∧ r.status = .active)) :=
  ⟨⟨by decide,
     ((C4_amended_join_exclusive initState 0 1 "alice" 10 envOkA).1
       (by decide)).1,
     ((C4_amended_join_exclusive initState 0 1 "alice" 10 envOkA).1
       (by decide)).2⟩,
   ⟨by decide,
     ((C4_amended_join_exclusive
        (handle_join_queue initState 0 1 "alice" 10 envOkA) 1 2 "bob" 20
        envOkB).2 ⟨1, "alice", 10, 0⟩ [] (by decide)).1,
     ((C4_amended_join_exclusive
        (handle_join_queue initState 0 1 "alice" 10 envOkA) 1 2 "bob" 20
        envOkB).2 ⟨1, "alice", 10, 0⟩ [] (by decide)).2⟩⟩

end CogniMeet
